import Mathlib

/-!
Verification of the authentication/authorization core of the
`pf-zambom-back` repository (`auth.py`), as a shallow embedding in Lean 4.

The embedding models Python values flowing through the code as a JSON-like
inductive type `JVal`, and Python operations that can raise (attribute
access on non-dicts, `in` on non-containers, string `.lower()` on
non-strings, indexing an empty list) as `Except String` computations whose
`error` branch stands for an uncaught Python exception (which Flask
surfaces as a 500 response).

Third-party library calls (`python-jose`'s `jwt.get_unverified_header`
and `jwt.decode`, the `requests` network fetch) are not part of the
repository's source; they are modelled from the specification's
description of the verification step, as noted on each such definition.
-/

namespace PfZambom

/-- JSON-like values, the shape of data flowing through `auth.py`
(request headers aside, which stay `String`): claim payloads, JWKS
documents, claim values. -/
inductive JVal where
  | null : JVal
  | bool : Bool → JVal
  | num : Int → JVal
  | str : String → JVal
  | list : List JVal → JVal
  | obj : List (String × JVal) → JVal

mutual

/-- Python `==` on `JVal` (structural equality; the Python `1 == True`
numeric coercion never matters for the string/None comparisons the code
performs). -/
def jbeq : JVal → JVal → Bool
  | .null, .null => true
  | .bool a, .bool b => a == b
  | .num a, .num b => a == b
  | .str a, .str b => a == b
  | .list a, .list b => jbeqList a b
  | .obj a, .obj b => jbeqObj a b
  | _, _ => false

def jbeqList : List JVal → List JVal → Bool
  | [], [] => true
  | x :: xs, y :: ys => jbeq x y && jbeqList xs ys
  | _, _ => false

def jbeqObj : List (String × JVal) → List (String × JVal) → Bool
  | [], [] => true
  | (k₁, v₁) :: xs, (k₂, v₂) :: ys => k₁ == k₂ && jbeq v₁ v₂ && jbeqObj xs ys
  | _, _ => false

end

/-- Python truthiness, negated: `not x` / falsiness of a `JVal`
(`None`, `False`, `0`, `""`, `[]` and the empty dict are falsy). -/
def pyFalsy : JVal → Bool
  | .null => true
  | .bool b => !b
  | .num n => n == 0
  | .str s => s.isEmpty
  | .list l => l.isEmpty
  | .obj entries => entries.isEmpty

/-- First binding of a key in an association list (Python dicts have
unique keys, so first-match lookup models `dict.__getitem__`). -/
def lookupObj : List (String × JVal) → String → Option JVal
  | [], _ => none
  | (k, v) :: rest, key => if k == key then some v else lookupObj rest key

/-- Python `x.get(key, default)`: dictionaries look the key up, every
other value raises `AttributeError`. -/
def pyGet (x : JVal) (key : String) (dflt : JVal) : Except String JVal :=
  match x with
  | .obj entries => .ok ((lookupObj entries key).getD dflt)
  | _ => .error "AttributeError: object has no attribute get"

/-- Whether the first character list starts the second. -/
def leadsWith : List Char → List Char → Bool
  | [], _ => true
  | _ :: _, [] => false
  | a :: as, b :: bs => a == b && leadsWith as bs

/-- Whether the first character list occurs contiguously in the second. -/
def containsSeq : List Char → List Char → Bool
  | needle, [] => needle.isEmpty
  | needle, c :: cs => leadsWith needle (c :: cs) || containsSeq needle cs

/-- Substring test, as Python `needle in haystack` on strings
(the empty needle is contained in every string). -/
def pySubstr (needle hay : String) : Bool :=
  containsSeq needle.toList hay.toList

/-- Python `s.endswith(suffix)`: whether the reversed suffix starts the
reversed string. -/
def pyEndsWith (s suff : String) : Bool :=
  leadsWith suff.toList.reverse s.toList.reverse

/-- Python `x in container`: list membership by `==`, substring test on
strings (raising `TypeError` when the left operand is not a string),
key membership on dicts, `TypeError` on everything else. -/
def pyIn (x : JVal) (container : JVal) : Except String Bool :=
  match container with
  | .list l => .ok (l.any (jbeq x))
  | .str hay =>
    match x with
    | .str needle => .ok (pySubstr needle hay)
    | _ => .error "TypeError: in string requires string as left operand"
  | .obj entries => .ok (entries.any (fun kv => jbeq x (.str kv.1)))
  | _ => .error "TypeError: argument is not iterable"

/-- Helper for `pySplitWs`: walks the characters keeping the current
word reversed in `acc`. -/
def pySplitWsAux : List Char → List Char → List String
  | [], acc => if acc.isEmpty then [] else [String.mk acc.reverse]
  | c :: cs, acc =>
    if c.isWhitespace then
      if acc.isEmpty then pySplitWsAux cs []
      else String.mk acc.reverse :: pySplitWsAux cs []
    else pySplitWsAux cs (c :: acc)

/-- Python `s.split()` with no argument: split on runs of whitespace,
discarding empty pieces (so a whitespace-only string splits to `[]`). -/
def pySplitWs (s : String) : List String :=
  pySplitWsAux s.toList []

/-- Python `s.lower()` (character-wise, sufficient for the ASCII scheme
comparison the code performs). -/
def pyLower (s : String) : String :=
  String.mk (s.toList.map Char.toLower)

/-- Python `for elem in x`: lists yield their elements, strings their
characters, dicts their keys; other values raise `TypeError`. -/
def iterElems : JVal → Except String (List JVal)
  | .list l => .ok l
  | .str s => .ok (s.toList.map (fun c => .str (String.mk [c])))
  | .obj entries => .ok (entries.map (fun kv => .str kv.1))
  | _ => .error "TypeError: argument is not iterable"

/-- Outcome of `_get_token_auth_header`: the extracted token, an
`abort(401, description)`, or an uncaught Python exception. -/
inductive HeaderOutcome where
  | token : String → HeaderOutcome
  | unauthorized : String → HeaderOutcome
  | pyError : String → HeaderOutcome

/-- `auth.py` lines 32-44, `_get_token_auth_header`: reads the
`Authorization` header (`none` when absent), aborts 401 when it is
missing/empty, splits on whitespace, checks the `Bearer` scheme and the
part count.  Note `parts[0]` on a whitespace-only header indexes an
empty list and raises `IndexError`. -/
def _get_token_auth_header (auth : Option String) : HeaderOutcome :=
  match auth with
  | none => .unauthorized "Authorization header is expected."
  | some a =>
    if a.isEmpty then .unauthorized "Authorization header is expected."
    else
      match pySplitWs a with
      | [] => .pyError "IndexError: list index out of range"
      | p0 :: rest =>
        if pyLower p0 != "bearer" then
          .unauthorized "Authorization header must start with Bearer."
        else
          match rest with
          | [] => .unauthorized "Token not found."
          | t :: more =>
            if more.isEmpty then .token t
            else .unauthorized "Authorization header must be Bearer token."


/-- Abstraction of a JWT as seen through `python-jose`: the attributes of
the raw token string that the library functions inspect.  `headerOk` says
the unverified header parses; `kid` is its key identifier; `alg` the
signature algorithm named by the token; `sigOk` whether the signature is
cryptographically valid under the key the pipeline selects; `exp`, `aud`,
`iss` the standard claims; `payload` the decoded claims body. -/
structure TokenM where
  headerOk : Bool
  kid : Option String
  alg : String
  sigOk : Bool
  exp : Int
  aud : String
  iss : String
  payload : JVal

/-- Errors raised by `jose.jwt.decode`, as caught in `auth.py`:
`ExpiredSignatureError` (a subclass of `JWTError`) is caught first,
every other failure is a `JWTError`. -/
inductive JoseError where
  | expiredSignature : JoseError
  | jwtError : String → JoseError

/-- Modelled from the spec: `jose.jwt.get_unverified_header` is
third-party library code absent from the repository.  Per spec §4.2
step 2 the token's unverified header must parse; on failure the library
raises `JWTError`.  On success the code reads the header's `"kid"`
entry (absent → `None`). -/
def jose_get_unverified_header (tok : TokenM) : Except String (Option String) :=
  if tok.headerOk then .ok tok.kid else .error "JWTError"

/-- Modelled from the spec: `jose.jwt.decode` is third-party library
code absent from the repository.  Per spec §4.2 step 4 it validates the
signature under an allow-listed algorithm and the standard claims
(expiry, audience, issuer); expiry failure raises
`ExpiredSignatureError` — per the spec, "regardless of signature
validity" — and any other mismatch or signature failure raises
`JWTError`. -/
def jose_decode (tok : TokenM) (algorithms : List String)
    (audience issuer : String) (now : Int) : Except JoseError JVal :=
  if tok.exp < now then .error .expiredSignature
  else if algorithms.contains tok.alg && tok.sigOk
      && tok.aud == audience && tok.iss == issuer then .ok tok.payload
  else .error (.jwtError "signature or claims verification failed")

/-- `auth.py` line 12: the accepted algorithm list. -/
def ALGORITHMS : List String := ["RS256"]

/-- The environment-sourced configuration consumed by `auth.py`:
`AUTH0_DOMAIN` and `API_AUDIENCE` (lines 10-11). -/
structure AuthConfig where
  domain : String
  audience : String

/-- The token header's `"kid"` entry as the Python value compared in the
key scan (`None` when absent). -/
def kidJ : Option String → JVal
  | none => .null
  | some k => .str k

/-- One JWKS entry turned into the `rsa_key` dict built in `auth.py`
lines 64-70 (each field via `.get`, `None` when absent). -/
def buildRsaKey (key : JVal) : Except String JVal := do
  let kty ← pyGet key "kty" .null
  let kid ← pyGet key "kid" .null
  let u ← pyGet key "use" .null
  let n ← pyGet key "n" .null
  let e ← pyGet key "e" .null
  pure (.obj [("kty", kty), ("kid", kid), ("use", u), ("n", n), ("e", e)])

/-- `auth.py` lines 62-71: the loop over `jwks.get("keys", [])`.  Every
element's `"kid"` is read via `.get` and compared with `==` to the
token header's; the loop does not break, so the LAST matching entry
wins.  `ok none` means no entry matched (`rsa_key` stays the falsy
`\x7b\x7d`). -/
def scanKeysGo : List JVal → JVal → Option JVal → Except String (Option JVal)
  | [], _, acc => .ok acc
  | key :: rest, kid, acc =>
    match pyGet key "kid" .null with
    | .error m => .error m
    | .ok k =>
      if jbeq k kid then
        match buildRsaKey key with
        | .error m => .error m
        | .ok r => scanKeysGo rest kid (some r)
      else scanKeysGo rest kid acc

/-- The key scan of `auth.py` lines 62-71, started with an empty
`rsa_key`. -/
def scanKeys (keys : List JVal) (kid : JVal) : Except String (Option JVal) :=
  scanKeysGo keys kid none

/-- `auth.py` lines 95-98: the per-scope loop body.  A required scope
passes when it is among the split `scope` tokens or — evaluated only
then, by Python's short-circuit `or` — contained (`in`) in the
`permissions` value; the first failing scope aborts 403. -/
def scopeLoop (tokenScopes : List String) (perms : JVal) :
    List String → Except String Bool
  | [] => .ok true
  | scope :: rest =>
    if tokenScopes.contains scope then scopeLoop tokenScopes perms rest
    else
      match pyIn (.str scope) perms with
      | .error m => .error m
      | .ok true => scopeLoop tokenScopes perms rest
      | .ok false => .ok false

/-- `auth.py` lines 88-98: the optional scope check.  A falsy
`required_scopes` (the `None` default of `requires_auth()` or an empty
list, both modelled as `[]`) skips the check; otherwise `scope` is
split when it is a string, `permissions` defaults to `[]`, and each
required scope is looked up. -/
def checkScopes (required : List String) (payload : JVal) : Except String Bool :=
  if required.isEmpty then .ok true
  else
    match pyGet payload "scope" .null with
    | .error m => .error m
    | .ok sc =>
      let tokenScopes := match sc with | .str s => pySplitWs s | _ => []
      match pyGet payload "permissions" (.list []) with
      | .error m => .error m
      | .ok perms => scopeLoop tokenScopes perms required

/-- Result of running a guard-wrapped request: the protected operation
proceeds with the attached principal, or an `abort(status, description)`
fires, or an uncaught Python exception escapes (Flask turns it into a
500 response). -/
inductive GuardResult where
  | proceed : JVal → GuardResult
  | abort401 : String → GuardResult
  | abort403 : String → GuardResult
  | abort500 : String → GuardResult
  | pyError : String → GuardResult

/-- `auth.py` lines 58-101: the verification steps of the
`requires_auth` wrapper after the JWKS availability check — unverified
header decode (401 `"Invalid header."` on parse failure), key scan
(401 `"Unable to find appropriate key"` when no entry matches),
`jwt.decode` (401 `"token expired"` on expiry, 401 `"Invalid token:
..."` otherwise) and the optional scope check (403
`"insufficient_scope"`). -/
def verifyToken (cfg : AuthConfig) (tok : TokenM) (now : Int)
    (required : List String) (jw : JVal) : GuardResult :=
  match jose_get_unverified_header tok with
  | .error _ => .abort401 "Invalid header."
  | .ok kid =>
    match pyGet jw "keys" (.list []) with
    | .error m => .pyError m
    | .ok keysVal =>
      match iterElems keysVal with
      | .error m => .pyError m
      | .ok elems =>
        match scanKeys elems (kidJ kid) with
        | .error m => .pyError m
        | .ok none => .abort401 "Unable to find appropriate key"
        | .ok (some _) =>
          match jose_decode tok ALGORITHMS cfg.audience
              ("https://" ++ cfg.domain ++ "/") now with
          | .error .expiredSignature => .abort401 "token expired"
          | .error (.jwtError m) => .abort401 ("Invalid token: " ++ m)
          | .ok payload =>
            match checkScopes required payload with
            | .error m => .pyError m
            | .ok true => .proceed payload
            | .ok false => .abort403 "insufficient_scope"

/-- `auth.py` lines 46-101, the `requires_auth` decorator body: extract
the bearer token, call `get_jwks` (its result is `jwks`; `None` aborts
500 `"JWKS indisponível"`), then run the verification steps.  `tokM`
maps the extracted raw token string to its jose-level attributes. -/
def requiresAuth (cfg : AuthConfig) (tokM : String → TokenM) (now : Int)
    (required : List String) (hdr : Option String) (jwks : Option JVal) :
    GuardResult :=
  match _get_token_auth_header hdr with
  | .unauthorized d => .abort401 d
  | .pyError m => .pyError m
  | .token t =>
    match jwks with
    | none => .abort500 "JWKS indisponível"
    | some jw => verifyToken cfg (tokM t) now required jw

/-- Python `any(r.lower() == "admin" for r in roles)` (`auth.py` lines
118 and 125): stops at the first match; an element without `.lower()`
(any non-string) raises `AttributeError` when reached. -/
def anyLowerAdmin : List JVal → Except String Bool
  | [] => .ok false
  | .str s :: rest =>
    if pyLower s == "admin" then .ok true else anyLowerAdmin rest
  | _ :: _ => .error "AttributeError: object has no attribute lower"

/-- `auth.py` line 113: whether a `permissions` value is a list holding
either delete-capability marker. -/
def permsHasDelete : JVal → Bool
  | .list l => l.any (jbeq (.str "delete:trip")) || l.any (jbeq (.str "delete:investor"))
  | _ => false

/-- `auth.py` lines 123-126: the loop over `payload.items()` looking
for a key ending in `"/roles"` whose list value names `admin`. -/
def namespacedLoop : List (String × JVal) → Except String Bool
  | [] => .ok false
  | (k, v) :: rest =>
    if pyEndsWith k "/roles" then
      match v with
      | .list l =>
        match anyLowerAdmin l with
        | .error m => .error m
        | .ok true => .ok true
        | .ok false => namespacedLoop rest
      | _ => namespacedLoop rest
    else namespacedLoop rest

/-- Python `payload.items()`: dict iteration; any other value raises
`AttributeError`. -/
def pyItems : JVal → Except String (List (String × JVal))
  | .obj entries => .ok entries
  | _ => .error "AttributeError: object has no attribute items"

/-- `auth.py` line 111-113, step 1 of `is_admin_from_payload`:
`payload.get("permissions", []) or []` — falsy values coerced to the
empty list — tested for a delete-capability marker. -/
def permsStep (perms0 : JVal) : Bool :=
  permsHasDelete (if pyFalsy perms0 then .list [] else perms0)

/-- `auth.py` lines 115-126, steps 2-3 of `is_admin_from_payload`:
`rolesOrRole` is `payload.get("roles") or payload.get("role")`; a
string is wrapped into a singleton list; a list is scanned for `admin`
case-insensitively; on fall-through, the `.../roles`-suffixed claims of
`payload.items()` are scanned. -/
def rolesStep (payload : JVal) (rolesOrRole : JVal) : Except String Bool :=
  match (match rolesOrRole with | .str s => JVal.list [.str s] | v => v) with
  | .list l =>
    match anyLowerAdmin l with
    | .error m => .error m
    | .ok true => .ok true
    | .ok false =>
      match pyItems payload with
      | .error m => .error m
      | .ok entries => namespacedLoop entries
  | _ =>
    match pyItems payload with
    | .error m => .error m
    | .ok entries => namespacedLoop entries

/-- `auth.py` lines 105-127, `is_admin_from_payload`: falsy payloads are
not admin; then (1) a list-valued `permissions` containing
`delete:trip` or `delete:investor`, (2) `payload.get("roles") or
payload.get("role")` — strings wrapped into a singleton list — holding
`admin` case-insensitively, (3) any `.../roles`-keyed list holding
`admin` case-insensitively.  `error` models an uncaught Python
exception. -/
def is_admin_from_payload (payload : JVal) : Except String Bool :=
  if pyFalsy payload then .ok false
  else
    match pyGet payload "permissions" (.list []) with
    | .error m => .error m
    | .ok perms0 =>
      if permsStep perms0 then .ok true
      else
        match pyGet payload "roles" .null with
        | .error m => .error m
        | .ok rolesRaw =>
          match (if pyFalsy rolesRaw then pyGet payload "role" .null
                 else .ok rolesRaw) with
          | .error m => .error m
          | .ok rolesOrRole => rolesStep payload rolesOrRole

/-- `auth.py` lines 136-141: the admin step of `requires_admin` after
`requires_auth()` has attached the principal — 403 `"Admin role
required"` when `is_admin_from_payload` answers false, and an uncaught
exception when it raises. -/
def adminCheck (payload : JVal) : GuardResult :=
  match is_admin_from_payload payload with
  | .error m => .pyError m
  | .ok true => .proceed payload
  | .ok false => .abort403 "Admin role required"

/-- `auth.py` lines 129-143, the `requires_admin` decorator: compose
`requires_auth()` (no scopes) with the admin check. -/
def requiresAdmin (cfg : AuthConfig) (tokM : String → TokenM) (now : Int)
    (hdr : Option String) (jwks : Option JVal) : GuardResult :=
  match requiresAuth cfg tokM now [] hdr jwks with
  | .proceed payload => adminCheck payload
  | r => r

/-- `auth.py` lines 16-30, `get_jwks`, as one step of the cache state
machine.  `domain` is `AUTH0_DOMAIN` (empty when unset), `fetch` the
outcome of `requests.get(...).json()` for this call (`error` covering
network failure, a non-2xx status and parse failure alike), `cache` the
process-wide `_jwks_cache` before the call.  Returns (result, new
cache).  A fetched JSON `null` assigns Python `None` to the cache,
leaving it empty. -/
def get_jwks (domain : String) (fetch : Except String JVal)
    (cache : Option JVal) : Option JVal × Option JVal :=
  match cache with
  | some j => (some j, some j)
  | none =>
    if domain.isEmpty then (none, none)
    else
      match fetch with
      | .ok .null => (none, none)
      | .ok j => (some j, some j)
      | .error _ => (none, none)

/-- A JSON error response as produced by the handlers registered in
`register_auth_error_handlers` (`auth.py` lines 145-156). -/
structure JsonResponse where
  error : String
  message : String
  status : Nat

/-- `auth.py` lines 146-148: the registered 401 handler. -/
def unauthorized_handler (d : String) : JsonResponse := ⟨"unauthorized", d, 401⟩

/-- `auth.py` lines 150-152: the registered 403 handler. -/
def forbidden_handler (d : String) : JsonResponse := ⟨"forbidden", d, 403⟩

/-- `auth.py` lines 154-156: the registered 500 handler. -/
def internal_handler (d : String) : JsonResponse := ⟨"internal_server_error", d, 500⟩

/-- The description Flask/Werkzeug attaches to the `InternalServerError`
it substitutes for an uncaught exception (the registered 500 handler
reads it via `getattr(e, "description", "")`). -/
def internalErrorDescription : String :=
  "The server encountered an internal error and was unable to complete your request. Either the server is overloaded or there is an error in the application."

/-- How Flask routes a guard outcome through the handlers registered in
`register_auth_error_handlers`: each `abort(status, description)` hits
the handler for its status, and an uncaught Python exception becomes an
`InternalServerError` handled by the 500 handler.  `none` means the
request proceeded. -/
def errorResponse : GuardResult → Option JsonResponse
  | .proceed _ => none
  | .abort401 d => some (unauthorized_handler d)
  | .abort403 d => some (forbidden_handler d)
  | .abort500 d => some (internal_handler d)
  | .pyError _ => some (internal_handler internalErrorDescription)

/-- The spec §7 failure taxonomy. -/
inductive VerificationError where
  | MissingHeader | MalformedScheme | MissingToken | ExtraTokenParts
  | MalformedToken | KeyStoreUnavailable | UnknownSigningKey
  | TokenExpired | InvalidToken | InsufficientScope | NotAdmin
  deriving DecidableEq

/-- The `abort` call each taxonomy element corresponds to in `auth.py`
(lines 35, 38, 40, 42, 60, 57, 72, 83, 85, 98, 140 respectively); `m`
is the interpolated jose message of the `InvalidToken` case. -/
def guardFailure : VerificationError → String → GuardResult
  | .MissingHeader, _ => .abort401 "Authorization header is expected."
  | .MalformedScheme, _ => .abort401 "Authorization header must start with Bearer."
  | .MissingToken, _ => .abort401 "Token not found."
  | .ExtraTokenParts, _ => .abort401 "Authorization header must be Bearer token."
  | .MalformedToken, _ => .abort401 "Invalid header."
  | .KeyStoreUnavailable, _ => .abort500 "JWKS indisponível"
  | .UnknownSigningKey, _ => .abort401 "Unable to find appropriate key"
  | .TokenExpired, _ => .abort401 "token expired"
  | .InvalidToken, m => .abort401 ("Invalid token: " ++ m)
  | .InsufficientScope, _ => .abort403 "insufficient_scope"
  | .NotAdmin, _ => .abort403 "Admin role required"

/-- Claim lookup on a payload: the value of a claim when the payload is
an object holding it. -/
def jvalLookup : JVal → String → Option JVal
  | .obj entries, k => lookupObj entries k
  | _, _ => none

/-- The whitespace-split tokens of a string-valued `"scope"` claim
(empty when the claim is absent or not a string). -/
def claimScopeTokens (payload : JVal) : List String :=
  match jvalLookup payload "scope" with
  | some (.str s) => pySplitWs s
  | _ => []

/-- The elements of a list-valued `"permissions"` claim (empty when the
claim is absent or not a list). -/
def claimPermsList (payload : JVal) : List JVal :=
  match jvalLookup payload "permissions" with
  | some (.list l) => l
  | _ => []

/-- The scope predicate exactly as claim C4 states it: every required
scope appears among the whitespace-split tokens of a string-valued
`"scope"` claim or in the list-valued `"permissions"` claim. -/
def claimC4_pred (required : List String) (payload : JVal) : Bool :=
  required.all (fun s =>
    (claimScopeTokens payload).contains s
    || (claimPermsList payload).any (jbeq (.str s)))

/-- Payloads on which the scope check takes no exception-raising path:
the payload is an object and its `"permissions"` claim, when present,
is a list. -/
def scopeCheckWF (payload : JVal) : Bool :=
  match payload with
  | .obj entries =>
    match lookupObj entries "permissions" with
    | none => true
    | some (.list _) => true
    | some _ => false
  | _ => false

/-- Whether a list of claim values holds the string `"admin"`
case-insensitively (total counterpart of `anyLowerAdmin`). -/
def strListHasAdmin (l : List JVal) : Bool :=
  l.any (fun v => match v with | .str s => pyLower s == "admin" | _ => false)

/-- Whether a roles-claim value — a string or a list — names `admin`
case-insensitively. -/
def rolesAdmin : JVal → Bool
  | .str s => pyLower s == "admin"
  | .list l => strListHasAdmin l
  | _ => false

/-- Part (a) of claim C5: the list-valued `"permissions"` claim contains
a delete-capability marker. -/
def claimPermsDelete (payload : JVal) : Bool :=
  match jvalLookup payload "permissions" with
  | some (.list l) =>
    l.any (jbeq (.str "delete:trip")) || l.any (jbeq (.str "delete:investor"))
  | _ => false

/-- Whether one claim entry is a `.../roles`-keyed list naming
`admin`. -/
def nsEntryAdmin (kv : String × JVal) : Bool :=
  pyEndsWith kv.1 "/roles"
  && (match kv.2 with | .list l => strListHasAdmin l | _ => false)

/-- Part (c) of claim C5: some claim whose key ends with `"/roles"` is a
list containing `admin` case-insensitively. -/
def claimNamespacedAdmin (payload : JVal) : Bool :=
  match payload with
  | .obj entries => entries.any nsEntryAdmin
  | _ => false

/-- The admin predicate exactly as claim C5 states it: (a) delete
marker in `permissions`, or (b) a `"roles"` or `"role"` claim naming
`admin`, or (c) a namespaced `.../roles` list naming `admin`. -/
def claimC5_pred (payload : JVal) : Bool :=
  claimPermsDelete payload
  || rolesAdmin ((jvalLookup payload "roles").getD .null)
  || rolesAdmin ((jvalLookup payload "role").getD .null)
  || claimNamespacedAdmin payload

/-- The roles value the code actually inspects:
`payload.get("roles") or payload.get("role")` — the `"role"` claim is
consulted only when `"roles"` is absent or falsy. -/
def effRolesVal (payload : JVal) : JVal :=
  let r := (jvalLookup payload "roles").getD .null
  if pyFalsy r then (jvalLookup payload "role").getD .null else r

/-- The amended admin predicate: as claim C5, except that the `"role"`
claim is consulted only when `"roles"` is absent or falsy, mirroring
the Python `or` fallback. -/
def admin_spec (payload : JVal) : Bool :=
  if pyFalsy payload then false
  else
    claimPermsDelete payload
    || rolesAdmin (effRolesVal payload)
    || claimNamespacedAdmin payload

/-- Whether every element of the list is a string. -/
def allStrings (l : List JVal) : Bool :=
  l.all (fun v => match v with | .str _ => true | _ => false)

/-- Whether one claim entry, when a `.../roles`-keyed list, contains
only strings. -/
def nsEntryWF (kv : String × JVal) : Bool :=
  !(pyEndsWith kv.1 "/roles")
  || (match kv.2 with | .list l => allStrings l | _ => true)

/-- Payloads on which the admin check takes no exception-raising path:
falsy, or an object whose effective roles value and `.../roles`-keyed
values, when lists, contain only strings. -/
def wfAdmin (payload : JVal) : Bool :=
  if pyFalsy payload then true
  else
    match payload with
    | .obj entries =>
      (match effRolesVal payload with
       | .list l => allStrings l
       | _ => true)
      && entries.all nsEntryWF
    | _ => false

/-- Whether a cached JWKS document actually holds a `"keys"` entry. -/
def hasKeys : JVal → Bool
  | .obj entries => (lookupObj entries "keys").isSome
  | _ => false

/-- A concrete configuration for witnesses. -/
def sampleCfg : AuthConfig := ⟨"example.auth0.com", "my-api"⟩

/-- A concrete claims payload for witnesses. -/
def goodPayload : JVal :=
  .obj [("scope", .str "read:trips write:trips"), ("permissions", .list [.str "delete:trip"])]

/-- A concrete valid token for witnesses. -/
def goodTok : TokenM :=
  ⟨true, some "k1", "RS256", true, 100, "my-api", "https://example.auth0.com/", goodPayload⟩

/-- A concrete token whose `exp` is past and whose signature is invalid. -/
def expiredTok : TokenM :=
  ⟨true, some "k1", "RS256", false, -1, "my-api", "https://example.auth0.com/", goodPayload⟩

/-- A concrete token whose unverified header does not parse. -/
def badHeaderTok : TokenM :=
  ⟨false, none, "RS256", false, 100, "my-api", "https://example.auth0.com/", .null⟩

/-- A concrete JWKS entry matching `goodTok`. -/
def sampleKey : JVal :=
  .obj [("kty", .str "RSA"), ("kid", .str "k1"), ("use", .str "sig"),
    ("n", .str "0"), ("e", .str "AQAB")]

/-- A concrete JWKS document for witnesses. -/
def sampleJwks : JVal := .obj [("keys", .list [sampleKey])]

/-- The counterexample payload for claim C4: a string-valued
`"permissions"` claim. -/
def strPermsPayload : JVal := .obj [("permissions", .str "read:trips")]

/-- The counterexample payload for claim C5: a truthy non-admin
`"roles"` claim next to an admin `"role"` claim. -/
def editorRolesAdminRole : JVal :=
  .obj [("roles", .list [.str "editor"]), ("role", .str "admin")]

/-- The counterexample payload for claim C10: a `"roles"` list holding
a non-string element. -/
def numericRolesPayload : JVal := .obj [("roles", .list [.num 1])]

/-- A JSON document without a `"keys"` entry, for claim C9. -/
def keylessDoc : JVal := .obj [("foo", .num 1)]

/-! ## Helper lemmas -/

/-- The five header-extraction outcomes on representative inputs: the
four malformed classes of spec §4.2 step 1 abort 401, a well-formed
header (scheme case-insensitive) extracts the token. -/
lemma header_extraction_cases :
    _get_token_auth_header none = .unauthorized "Authorization header is expected."
    ∧ _get_token_auth_header (some "") = .unauthorized "Authorization header is expected."
    ∧ _get_token_auth_header (some "Basic abc") = .unauthorized "Authorization header must start with Bearer."
    ∧ _get_token_auth_header (some "Bearer") = .unauthorized "Token not found."
    ∧ _get_token_auth_header (some "Bearer a b") = .unauthorized "Authorization header must be Bearer token."
    ∧ _get_token_auth_header (some "bEaReR tok") = .token "tok" :=
  ⟨by rfl, by rfl, by rfl, by rfl, by rfl, by rfl⟩

/-- End-to-end smoke check: the concrete valid request passes both
guards with the payload attached. -/
lemma pipeline_accepts_valid_request :
    requiresAuth sampleCfg (fun _ => goodTok) 0 ["read:trips"] (some "Bearer t")
      (some sampleJwks) = .proceed goodPayload
    ∧ requiresAdmin sampleCfg (fun _ => goodTok) 0 (some "Bearer t")
      (some sampleJwks) = .proceed goodPayload :=
  ⟨by rfl, by rfl⟩

lemma scopeLoop_list (ts : List String) (l : List JVal) :
    ∀ req, scopeLoop ts (.list l) req
      = .ok (req.all fun s => ts.contains s || l.any (jbeq (.str s))) := by
  intro req
  induction req with
  | nil => rfl
  | cons s rest ih =>
    simp only [scopeLoop, pyIn, List.all_cons]
    cases hc : ts.contains s with
    | true => simp [hc, ih]
    | false =>
      cases ha : l.any (jbeq (.str s)) with
      | true => simp [hc, ha, ih]
      | false => simp [hc, ha]

lemma strMatch_eq (o : Option JVal) :
    (match o.getD .null with | JVal.str s => pySplitWs s | _ => ([] : List String))
      = (match o with | some (.str s) => pySplitWs s | _ => []) := by
  cases o with
  | none => rfl
  | some v => cases v <;> rfl

lemma permsGetD_eq (entries : List (String × JVal))
    (h : scopeCheckWF (.obj entries) = true) :
    (lookupObj entries "permissions").getD (JVal.list [])
      = JVal.list (claimPermsList (.obj entries)) := by
  have h' : (match lookupObj entries "permissions" with
      | none => true | some (JVal.list _) => true | some _ => false) = true := by
    simpa [scopeCheckWF] using h
  cases hp : lookupObj entries "permissions" with
  | none => simp [claimPermsList, jvalLookup, hp]
  | some v =>
    rw [hp] at h'
    cases v <;> simp_all [claimPermsList, jvalLookup]

lemma checkScopes_eq (required : List String) (payload : JVal)
    (h : scopeCheckWF payload = true) :
    checkScopes required payload = .ok (claimC4_pred required payload) := by
  cases payload with
  | obj entries =>
    cases required with
    | nil => rfl
    | cons s rest =>
      unfold checkScopes
      simp only [List.isEmpty_cons, pyGet, Bool.false_eq_true, if_false]
      rw [strMatch_eq, permsGetD_eq entries h, scopeLoop_list]
      unfold claimC4_pred claimScopeTokens
      rfl
  | null => simp [scopeCheckWF] at h
  | bool b => simp [scopeCheckWF] at h
  | num n => simp [scopeCheckWF] at h
  | str s => simp [scopeCheckWF] at h
  | list l => simp [scopeCheckWF] at h

lemma anyLowerAdmin_ok : ∀ l, allStrings l = true →
    anyLowerAdmin l = .ok (strListHasAdmin l) := by
  intro l
  induction l with
  | nil => intro; rfl
  | cons v rest ih =>
    intro h
    simp only [allStrings, List.all_cons, Bool.and_eq_true] at h
    cases v with
    | str s =>
      have hrest : allStrings rest = true := h.2
      cases hq : pyLower s == "admin" with
      | true => simp [anyLowerAdmin, strListHasAdmin, hq]
      | false => simp [anyLowerAdmin, strListHasAdmin, hq, ih hrest]
    | null => simp at h
    | bool b => simp at h
    | num n => simp at h
    | list l2 => simp at h
    | obj e2 => simp at h

lemma namespacedLoop_cons (k : String) (v : JVal) (rest : List (String × JVal)) :
    namespacedLoop ((k, v) :: rest) =
      if pyEndsWith k "/roles" then
        (match v with
         | .list l =>
           (match anyLowerAdmin l with
            | .error m => .error m
            | .ok true => .ok true
            | .ok false => namespacedLoop rest)
         | _ => namespacedLoop rest)
      else namespacedLoop rest := rfl

lemma namespacedLoop_ok : ∀ entries, entries.all nsEntryWF = true →
    namespacedLoop entries = .ok (entries.any nsEntryAdmin) := by
  intro entries
  induction entries with
  | nil => intro; rfl
  | cons kv rest ih =>
    intro h
    obtain ⟨k, v⟩ := kv
    simp only [List.all_cons, Bool.and_eq_true] at h
    obtain ⟨hkv, hrest⟩ := h
    rw [namespacedLoop_cons, List.any_cons]
    cases he : pyEndsWith k "/roles" with
    | false => simp [he, nsEntryAdmin, ih hrest]
    | true =>
      cases v with
      | list l =>
        have hl : allStrings l = true := by
          simpa [nsEntryWF, he] using hkv
        cases ha : strListHasAdmin l with
        | true => simp [anyLowerAdmin_ok l hl, he, nsEntryAdmin, ha]
        | false => simp [anyLowerAdmin_ok l hl, he, nsEntryAdmin, ha, ih hrest]
      | null => simp [he, nsEntryAdmin, ih hrest]
      | bool b => simp [he, nsEntryAdmin, ih hrest]
      | num n => simp [he, nsEntryAdmin, ih hrest]
      | str s => simp [he, nsEntryAdmin, ih hrest]
      | obj e2 => simp [he, nsEntryAdmin, ih hrest]

lemma permsStep_eq (entries : List (String × JVal)) :
    permsStep ((lookupObj entries "permissions").getD (.list []))
      = claimPermsDelete (.obj entries) := by
  simp only [claimPermsDelete, jvalLookup]
  cases ho : lookupObj entries "permissions" with
  | none => rfl
  | some v =>
    cases v with
    | null => rfl
    | bool b => cases b <;> rfl
    | num n =>
      cases hn : (n == 0) <;> simp [permsStep, permsHasDelete, pyFalsy, hn]
    | str s =>
      cases hs : s.isEmpty <;> simp [permsStep, permsHasDelete, pyFalsy, hs]
    | list l => cases l with | nil => rfl | cons x xs => rfl
    | obj e => cases e with | nil => rfl | cons x xs => rfl

lemma rolesStep_ok (entries : List (String × JVal)) (rv : JVal)
    (hrv : (match rv with | JVal.list l => allStrings l | _ => true) = true)
    (hns : entries.all nsEntryWF = true) :
    rolesStep (.obj entries) rv = .ok (rolesAdmin rv || entries.any nsEntryAdmin) := by
  cases rv with
  | str s =>
    cases hq : pyLower s == "admin" with
    | true => simp [rolesStep, anyLowerAdmin, hq, rolesAdmin]
    | false =>
      simp [rolesStep, anyLowerAdmin, hq, rolesAdmin, pyItems,
        namespacedLoop_ok entries hns]
  | list l =>
    have hl : allStrings l = true := by simpa using hrv
    cases ha : strListHasAdmin l with
    | true => simp [rolesStep, anyLowerAdmin_ok l hl, ha, rolesAdmin]
    | false =>
      simp [rolesStep, anyLowerAdmin_ok l hl, ha, rolesAdmin, pyItems,
        namespacedLoop_ok entries hns]
  | null => simp [rolesStep, rolesAdmin, pyItems, namespacedLoop_ok entries hns]
  | bool b => simp [rolesStep, rolesAdmin, pyItems, namespacedLoop_ok entries hns]
  | num n => simp [rolesStep, rolesAdmin, pyItems, namespacedLoop_ok entries hns]
  | obj e => simp [rolesStep, rolesAdmin, pyItems, namespacedLoop_ok entries hns]

lemma is_admin_eq_spec (payload : JVal) (h : wfAdmin payload = true) :
    is_admin_from_payload payload = .ok (admin_spec payload) := by
  cases hf : pyFalsy payload with
  | true => simp [is_admin_from_payload, admin_spec, hf]
  | false =>
    cases payload with
    | null => simp [pyFalsy] at hf
    | bool b => simp [wfAdmin, hf] at h
    | num n => simp [wfAdmin, hf] at h
    | str s => simp [wfAdmin, hf] at h
    | list l => simp [wfAdmin, hf] at h
    | obj entries =>
      rw [wfAdmin] at h
      rw [hf] at h
      simp only [Bool.false_eq_true, if_false, Bool.and_eq_true] at h
      obtain ⟨hroles, hns⟩ := h
      rw [is_admin_from_payload, hf]
      simp only [Bool.false_eq_true, if_false, pyGet]
      rw [permsStep_eq entries]
      cases hpd : claimPermsDelete (.obj entries) with
      | true => simp [admin_spec, hf, hpd]
      | false =>
        simp only [Bool.false_eq_true, if_false]
        cases hfr : pyFalsy ((lookupObj entries "roles").getD .null) with
        | true =>
          have he2 : effRolesVal (.obj entries)
              = (lookupObj entries "role").getD .null := by
            simp [effRolesVal, jvalLookup, hfr]
          rw [he2] at hroles
          simp only [hfr, if_true, pyGet]
          rw [rolesStep_ok entries _ hroles hns]
          simp [admin_spec, hf, hpd, he2, claimNamespacedAdmin]
        | false =>
          have he2 : effRolesVal (.obj entries)
              = (lookupObj entries "roles").getD .null := by
            simp [effRolesVal, jvalLookup, hfr]
          rw [he2] at hroles
          simp only [hfr, Bool.false_eq_true, if_false]
          rw [rolesStep_ok entries _ hroles hns]
          simp [admin_spec, hf, hpd, he2, claimNamespacedAdmin]

lemma verifyToken_decode (cfg : AuthConfig) (tok : TokenM) (now : Int)
    (required : List String) (jw kv : JVal) (elems : List JVal) (r : JVal)
    (h1 : tok.headerOk = true)
    (h2 : pyGet jw "keys" (.list []) = .ok kv)
    (h3 : iterElems kv = .ok elems)
    (h4 : scanKeys elems (kidJ tok.kid) = .ok (some r)) :
    verifyToken cfg tok now required jw =
      match jose_decode tok ALGORITHMS cfg.audience
          ("https://" ++ cfg.domain ++ "/") now with
      | .error .expiredSignature => .abort401 "token expired"
      | .error (.jwtError m) => .abort401 ("Invalid token: " ++ m)
      | .ok payload =>
        match checkScopes required payload with
        | .error m => .pyError m
        | .ok true => .proceed payload
        | .ok false => .abort403 "insufficient_scope" := by
  simp only [verifyToken, jose_get_unverified_header, h1, if_true, h2, h3, h4]

lemma verifyToken_ne_abort500 (cfg : AuthConfig) (tok : TokenM) (now : Int)
    (required : List String) (jw : JVal) (d : String) :
    verifyToken cfg tok now required jw ≠ .abort500 d := by
  intro h
  unfold verifyToken at h
  repeat' split at h
  all_goals exact GuardResult.noConfusion h

lemma requiresAuth_some_ne_abort500 (cfg : AuthConfig) (tokM : String → TokenM)
    (now : Int) (required : List String) (hdr : Option String) (jw : JVal)
    (d : String) :
    requiresAuth cfg tokM now required hdr (some jw) ≠ .abort500 d := by
  unfold requiresAuth
  cases hh : _get_token_auth_header hdr with
  | unauthorized d2 => exact fun h => GuardResult.noConfusion h
  | pyError m => exact fun h => GuardResult.noConfusion h
  | token t => exact verifyToken_ne_abort500 cfg (tokM t) now required jw d

lemma verifyToken_proceed_sig (cfg : AuthConfig) (tok : TokenM) (now : Int)
    (required : List String) (jw : JVal) (p : JVal)
    (h : verifyToken cfg tok now required jw = .proceed p) :
    ALGORITHMS.contains tok.alg = true ∧ tok.sigOk = true := by
  unfold verifyToken at h
  split at h
  · exact GuardResult.noConfusion h
  · split at h
    · exact GuardResult.noConfusion h
    · split at h
      · exact GuardResult.noConfusion h
      · split at h
        · exact GuardResult.noConfusion h
        · exact GuardResult.noConfusion h
        · split at h
          · exact GuardResult.noConfusion h
          · exact GuardResult.noConfusion h
          · rename_i payload heq
            unfold jose_decode at heq
            split at heq
            · exact Except.noConfusion heq
            · split at heq
              · rename_i hcond
                simp only [Bool.and_eq_true] at hcond
                exact ⟨hcond.1.1.1, hcond.1.1.2⟩
              · exact Except.noConfusion heq

/-! ## Claim theorems -/

/-- C1: the claim says every malformed `Authorization` header — a
whitespace-only one included — yields 401.  The code instead raises
`IndexError` at `parts[0]` for a whitespace-only header (Python
`split()` returns the empty list there), which Flask surfaces through
the 500 handler, not as a 401: evaluation of the guard at the failing
input `Authorization: " "`. -/
theorem C1_whitespace_header_500 :
    _get_token_auth_header (some " ") = .pyError "IndexError: list index out of range"
    ∧ requiresAuth sampleCfg (fun _ => goodTok) 0 [] (some " ") (some sampleJwks)
        = .pyError "IndexError: list index out of range"
    ∧ errorResponse (GuardResult.pyError "IndexError: list index out of range")
        = some (internal_handler internalErrorDescription)
    ∧ (internal_handler internalErrorDescription).status = 500 :=
  ⟨rfl, rfl, rfl, rfl⟩

/-- C2: a request whose extracted token reaches the decode step with a
past `exp` is rejected 401 `"token expired"`, whatever the value of
`sigOk` (the token's signature validity) and of the other claims. -/
theorem C2_expired_token_401 (cfg : AuthConfig) (tokM : String → TokenM)
    (now : Int) (required : List String) (hdr : Option String) (jw kv : JVal)
    (elems : List JVal) (r : JVal) (t : String)
    (hhdr : _get_token_auth_header hdr = .token t)
    (h1 : (tokM t).headerOk = true)
    (h2 : pyGet jw "keys" (.list []) = .ok kv)
    (h3 : iterElems kv = .ok elems)
    (h4 : scanKeys elems (kidJ (tokM t).kid) = .ok (some r))
    (hexp : (tokM t).exp < now) :
    requiresAuth cfg tokM now required hdr (some jw) = .abort401 "token expired" := by
  simp only [requiresAuth, hhdr]
  rw [verifyToken_decode cfg (tokM t) now required jw kv elems r h1 h2 h3 h4]
  unfold jose_decode
  rw [if_pos hexp]

/-- C2 witness: a concrete expired token whose signature is invalid
(`sigOk = false`) is still rejected as `"token expired"`. -/
theorem C2_expired_token_401_witness :
    requiresAuth sampleCfg (fun _ => expiredTok) 0 [] (some "Bearer t")
      (some sampleJwks) = .abort401 "token expired" :=
  C2_expired_token_401 sampleCfg (fun _ => expiredTok) 0 [] (some "Bearer t")
    sampleJwks (.list [sampleKey]) [sampleKey] sampleKey "t"
    rfl rfl rfl rfl rfl (by decide)

/-- C3 counterexample: a request whose token's unverified header fails
to parse, issued while the key provider is unavailable, is answered
500 `"JWKS indisponível"` — not the `MalformedToken` 401 the claim
requires — because the code calls `get_jwks` before decoding the
header. -/
theorem C3_counterexample :
    requiresAuth sampleCfg (fun _ => badHeaderTok) 0 [] (some "Bearer junk") none
      = .abort500 "JWKS indisponível"
    ∧ errorResponse (requiresAuth sampleCfg (fun _ => badHeaderTok) 0 []
        (some "Bearer junk") none)
      = some (internal_handler "JWKS indisponível")
    ∧ (internal_handler "JWKS indisponível").status = 500 :=
  ⟨rfl, rfl, rfl⟩

/-- C3 amended: the code's step order is header extraction, then key
provider availability, then header decode, then key scan: (1) whenever
extraction succeeds and the provider is unavailable the answer is 500
`"JWKS indisponível"`, even for a garbage token; (2) `MalformedToken`
401 `"Invalid header."` is produced when the provider is available and
the unverified header fails to parse; (3) with a parsed header, a key
scan with no match yields 401 `"Unable to find appropriate key"`. -/
theorem C3_amended_order :
    (∀ (cfg : AuthConfig) (tokM : String → TokenM) (now : Int)
       (required : List String) (hdr : Option String) (t : String),
       _get_token_auth_header hdr = .token t →
       requiresAuth cfg tokM now required hdr none = .abort500 "JWKS indisponível")
    ∧ (∀ (cfg : AuthConfig) (tokM : String → TokenM) (now : Int)
       (required : List String) (hdr : Option String) (t : String) (jw : JVal),
       _get_token_auth_header hdr = .token t →
       (tokM t).headerOk = false →
       requiresAuth cfg tokM now required hdr (some jw) = .abort401 "Invalid header.")
    ∧ (∀ (cfg : AuthConfig) (tok : TokenM) (now : Int) (required : List String)
       (jw kv : JVal) (elems : List JVal),
       tok.headerOk = true →
       pyGet jw "keys" (.list []) = .ok kv →
       iterElems kv = .ok elems →
       scanKeys elems (kidJ tok.kid) = .ok none →
       verifyToken cfg tok now required jw = .abort401 "Unable to find appropriate key") := by
  refine ⟨?_, ?_, ?_⟩
  · intro cfg tokM now required hdr t hhdr
    simp only [requiresAuth, hhdr]
  · intro cfg tokM now required hdr t jw hhdr hho
    simp only [requiresAuth, hhdr, verifyToken, jose_get_unverified_header, hho,
      Bool.false_eq_true, if_false]
  · intro cfg tok now required jw kv elems h1 h2 h3 h4
    simp only [verifyToken, jose_get_unverified_header, h1, if_true, h2, h3, h4]

/-- C3 amended witness: with the key provider available, the
garbage-token request from the counterexample does get the 401. -/
theorem C3_amended_order_witness :
    requiresAuth sampleCfg (fun _ => badHeaderTok) 0 [] (some "Bearer junk")
      (some sampleJwks) = .abort401 "Invalid header." :=
  C3_amended_order.2.1 sampleCfg (fun _ => badHeaderTok) 0 [] (some "Bearer junk")
    "junk" sampleJwks rfl rfl

/-- C4 counterexample: with a string-valued `"permissions"` claim the
code passes the scope check by Python substring membership, while the
claim's predicate — which recognises only a list-valued `permissions`
claim — says the check must fail. -/
theorem C4_counterexample :
    checkScopes ["read:trips"] strPermsPayload = .ok true
    ∧ claimC4_pred ["read:trips"] strPermsPayload = false :=
  ⟨rfl, rfl⟩

/-- C4 amended: restricted to payloads whose `"permissions"` claim is
absent or list-valued, the scope check passes exactly when every
required scope is among the whitespace-split `"scope"` tokens or in
the `"permissions"` list; an empty required set always passes; at the
pipeline level a failing check yields 403 `"insufficient_scope"` and a
passing one proceeds.  (When `permissions` is a string, Python
substring membership applies instead.) -/
theorem C4_amended_scope_check :
    (∀ payload, checkScopes [] payload = .ok true)
    ∧ (∀ (required : List String) (payload : JVal), scopeCheckWF payload = true →
        checkScopes required payload = .ok (claimC4_pred required payload))
    ∧ (∀ (cfg : AuthConfig) (tok : TokenM) (now : Int) (required : List String)
        (jw kv : JVal) (elems : List JVal) (r : JVal),
        tok.headerOk = true →
        pyGet jw "keys" (.list []) = .ok kv →
        iterElems kv = .ok elems →
        scanKeys elems (kidJ tok.kid) = .ok (some r) →
        jose_decode tok ALGORITHMS cfg.audience ("https://" ++ cfg.domain ++ "/") now
          = .ok tok.payload →
        scopeCheckWF tok.payload = true →
        verifyToken cfg tok now required jw
          = (if claimC4_pred required tok.payload then .proceed tok.payload
             else .abort403 "insufficient_scope")) := by
  refine ⟨?_, ?_, ?_⟩
  · intro payload; rfl
  · exact fun required payload h => checkScopes_eq required payload h
  · intro cfg tok now required jw kv elems r h1 h2 h3 h4 hdec hwf
    rw [verifyToken_decode cfg tok now required jw kv elems r h1 h2 h3 h4]
    simp only [hdec, checkScopes_eq required tok.payload hwf]
    cases hcp : claimC4_pred required tok.payload <;> simp [hcp]

/-- C4 amended witness: the concrete pipeline run with required scope
`read:trips` and a list-valued `permissions` claim. -/
theorem C4_amended_scope_check_witness :
    verifyToken sampleCfg goodTok 0 ["read:trips"] sampleJwks
      = (if claimC4_pred ["read:trips"] goodTok.payload then .proceed goodTok.payload
         else .abort403 "insufficient_scope") :=
  C4_amended_scope_check.2.2 sampleCfg goodTok 0 ["read:trips"] sampleJwks
    (.list [sampleKey]) [sampleKey] sampleKey rfl rfl rfl rfl rfl rfl

/-- C5 counterexample: a payload whose truthy `"roles"` claim lacks
`admin` but whose `"role"` claim is `"admin"` is not admin for the
code (the `or` fallback never consults `"role"`), while the claim's
predicate — `"roles"` or `"role"` containing `admin` — says it is. -/
theorem C5_counterexample :
    is_admin_from_payload editorRolesAdminRole = .ok false
    ∧ claimC5_pred editorRolesAdminRole = true :=
  ⟨rfl, rfl⟩

/-- C5 amended: on payloads whose role-bearing lists contain only
strings, `is_admin_from_payload` returns true exactly when (a) the
list-valued `permissions` claim holds `delete:trip` or
`delete:investor`, or (b) the `"roles"` claim — or, when `"roles"` is
absent or falsy, the `"role"` claim — names `admin` case-insensitively,
or (c) some `.../roles`-keyed list names `admin` case-insensitively;
in particular `roles: ["editor"]` alone is not admin. -/
theorem C5_amended_admin_iff :
    (∀ payload, wfAdmin payload = true →
       is_admin_from_payload payload = .ok (admin_spec payload))
    ∧ is_admin_from_payload (.obj [("roles", .list [.str "editor"])]) = .ok false :=
  ⟨is_admin_eq_spec, rfl⟩

/-- C5 amended witness: the delete-marker payload is admin. -/
theorem C5_amended_admin_iff_witness :
    wfAdmin goodPayload = true
    ∧ is_admin_from_payload goodPayload = .ok (admin_spec goodPayload)
    ∧ admin_spec goodPayload = true :=
  ⟨by rfl, C5_amended_admin_iff.1 goodPayload (by rfl), by rfl⟩

/-- C6: whenever the guard lets a request proceed, the extracted
token's algorithm is in the `ALGORITHMS` allow-list — hence exactly
`RS256` — and its signature was valid; in particular no token using
`none` or an HMAC algorithm is ever accepted. -/
theorem C6_only_rs256 (cfg : AuthConfig) (tokM : String → TokenM) (now : Int)
    (required : List String) (hdr : Option String) (jwks : Option JVal)
    (p : JVal) (t : String)
    (hhdr : _get_token_auth_header hdr = .token t)
    (hp : requiresAuth cfg tokM now required hdr jwks = .proceed p) :
    ALGORITHMS.contains (tokM t).alg = true ∧ (tokM t).alg = "RS256"
    ∧ (tokM t).sigOk = true ∧ (tokM t).alg ≠ "none"
    ∧ (tokM t).alg ≠ "HS256" ∧ (tokM t).alg ≠ "HS384" ∧ (tokM t).alg ≠ "HS512" := by
  cases jwks with
  | none =>
    simp only [requiresAuth, hhdr] at hp
    exact GuardResult.noConfusion hp
  | some jw =>
    simp only [requiresAuth, hhdr] at hp
    obtain ⟨hcontains, hsig⟩ := verifyToken_proceed_sig cfg (tokM t) now required jw p hp
    have halg : (tokM t).alg = "RS256" := by
      have hmem : (tokM t).alg ∈ ALGORITHMS := by
        simpa using hcontains
      simpa [ALGORITHMS] using hmem
    refine ⟨hcontains, halg, hsig, ?_, ?_, ?_, ?_⟩ <;> simp [halg]

/-- C6 witness: the concrete accepted request indeed used `RS256` with
a valid signature. -/
theorem C6_only_rs256_witness :
    ALGORITHMS.contains goodTok.alg = true ∧ goodTok.alg = "RS256"
    ∧ goodTok.sigOk = true ∧ goodTok.alg ≠ "none"
    ∧ goodTok.alg ≠ "HS256" ∧ goodTok.alg ≠ "HS384" ∧ goodTok.alg ≠ "HS512" :=
  C6_only_rs256 sampleCfg (fun _ => goodTok) 0 [] (some "Bearer t")
    (some sampleJwks) goodPayload "t" rfl rfl

/-- C7: a failed key-set fetch (missing issuer domain or a network or
parse failure) makes `get_jwks` return the unavailable result and
leaves the cache empty; with an empty cache the next call that fetches
successfully populates it; while `get_jwks` answers unavailable every
request that passes header extraction is answered 500
`"JWKS indisponível"`; and once a key set is cached no request is
answered with a 500 `abort`. -/
theorem C7_key_provider_failure :
    (∀ (domain : String) (fetch : Except String JVal),
       domain.isEmpty = true ∨ (∃ e, fetch = .error e) →
       get_jwks domain fetch none = (none, none))
    ∧ (∀ (domain : String) (j : JVal), domain.isEmpty = false → j ≠ .null →
       get_jwks domain (.ok j) none = (some j, some j))
    ∧ (∀ (cfg : AuthConfig) (tokM : String → TokenM) (now : Int)
        (required : List String) (hdr : Option String) (t : String),
       _get_token_auth_header hdr = .token t →
       requiresAuth cfg tokM now required hdr none = .abort500 "JWKS indisponível")
    ∧ (∀ (cfg : AuthConfig) (tokM : String → TokenM) (now : Int)
        (required : List String) (hdr : Option String) (jw : JVal) (d : String),
       requiresAuth cfg tokM now required hdr (some jw) ≠ .abort500 d) := by
  refine ⟨?_, ?_, ?_, ?_⟩
  · intro domain fetch h
    cases h with
    | inl hd => simp [get_jwks, hd]
    | inr he =>
      obtain ⟨e, he⟩ := he
      cases hd : domain.isEmpty <;> simp [get_jwks, hd, he]
  · intro domain j hd hj
    cases j with
    | null => exact absurd rfl hj
    | bool b => simp [get_jwks, hd]
    | num n => simp [get_jwks, hd]
    | str s => simp [get_jwks, hd]
    | list l => simp [get_jwks, hd]
    | obj e => simp [get_jwks, hd]
  · intro cfg tokM now required hdr t hhdr
    simp only [requiresAuth, hhdr]
  · exact fun cfg tokM now required hdr jw d =>
      requiresAuth_some_ne_abort500 cfg tokM now required hdr jw d

/-- C7 witness: concrete failed fetches leave the cache empty, a
concrete retry succeeds, and a concrete extracted request is answered
500 while the key set is unavailable. -/
theorem C7_key_provider_failure_witness :
    get_jwks "" (.ok sampleJwks) none = (none, none)
    ∧ get_jwks "example.auth0.com" (.error "ConnectionError") none = (none, none)
    ∧ get_jwks "example.auth0.com" (.ok sampleJwks) none = (some sampleJwks, some sampleJwks)
    ∧ requiresAuth sampleCfg (fun _ => goodTok) 0 [] (some "Bearer t") none
        = .abort500 "JWKS indisponível" :=
  ⟨C7_key_provider_failure.1 "" (.ok sampleJwks) (Or.inl rfl),
   C7_key_provider_failure.1 "example.auth0.com" (.error "ConnectionError")
     (Or.inr ⟨"ConnectionError", rfl⟩),
   C7_key_provider_failure.2.1 "example.auth0.com" sampleJwks rfl
     (fun h => JVal.noConfusion h),
   C7_key_provider_failure.2.2.1 sampleCfg (fun _ => goodTok) 0 []
     (some "Bearer t") "t" rfl⟩

/-- C8: every taxonomy failure, routed through its `abort` call and the
registered error handlers, yields a JSON body with `error` and
`message` fields; the status is 500 exactly for `KeyStoreUnavailable`,
403 exactly for `InsufficientScope` and `NotAdmin`, 401 for everything
else; and the `error` value is `"forbidden"` on 403,
`"unauthorized"` on 401, `"internal_server_error"` on 500. -/
theorem C8_response_contract : ∀ (v : VerificationError) (m : String),
    ∃ r : JsonResponse, errorResponse (guardFailure v m) = some r
      ∧ (r.status = 500 ↔ v = .KeyStoreUnavailable)
      ∧ (r.status = 403 ↔ (v = .InsufficientScope ∨ v = .NotAdmin))
      ∧ (r.status = 401 ∨ r.status = 403 ∨ r.status = 500)
      ∧ (r.status = 403 → r.error = "forbidden")
      ∧ (r.status = 401 → r.error = "unauthorized")
      ∧ (r.status = 500 → r.error = "internal_server_error") := by
  intro v m
  cases v <;>
    refine ⟨_, rfl, ?_, ?_, ?_, ?_, ?_, ?_⟩ <;>
      simp [unauthorized_handler, forbidden_handler, internal_handler]

/-- C8 witness: the contract instantiated at the `NotAdmin` failure. -/
theorem C8_response_contract_witness :
    ∃ r : JsonResponse,
      errorResponse (guardFailure .NotAdmin "") = some r
      ∧ (r.status = 500 ↔ VerificationError.NotAdmin = .KeyStoreUnavailable)
      ∧ (r.status = 403 ↔ (VerificationError.NotAdmin = .InsufficientScope
          ∨ VerificationError.NotAdmin = .NotAdmin))
      ∧ (r.status = 401 ∨ r.status = 403 ∨ r.status = 500)
      ∧ (r.status = 403 → r.error = "forbidden")
      ∧ (r.status = 401 → r.error = "unauthorized")
      ∧ (r.status = 500 → r.error = "internal_server_error") :=
  C8_response_contract .NotAdmin ""

/-- C9 counterexample: a successful fetch of a JSON document without a
`"keys"` entry is cached as-is — the cache does hold a keys-less
document, contradicting the claim. -/
theorem C9_counterexample :
    (get_jwks "example.auth0.com" (.ok keylessDoc) none).2 = some keylessDoc
    ∧ hasKeys keylessDoc = false :=
  ⟨rfl, rfl⟩

/-- C9 amended: the cache is atomic — after any call it is unchanged or
holds exactly the complete JSON document of this call's successful
fetch (never a partial result), and a populated cache is never
overwritten — but its content is not validated to contain a `"keys"`
entry. -/
theorem C9_amended_cache_atomic :
    (∀ (domain : String) (fetch : Except String JVal) (cache : Option JVal),
       (get_jwks domain fetch cache).2 = cache
       ∨ ∃ j, fetch = .ok j ∧ (get_jwks domain fetch cache).2 = some j)
    ∧ (∀ (domain : String) (fetch : Except String JVal) (j : JVal),
       get_jwks domain fetch (some j) = (some j, some j)) := by
  constructor
  · intro domain fetch cache
    cases cache with
    | some j => left; rfl
    | none =>
      cases hd : domain.isEmpty with
      | true => left; simp [get_jwks, hd]
      | false =>
        cases fetch with
        | error e => left; simp [get_jwks, hd]
        | ok j =>
          cases j with
          | null => left; simp [get_jwks, hd]
          | bool b => right; exact ⟨_, rfl, by simp [get_jwks, hd]⟩
          | num n => right; exact ⟨_, rfl, by simp [get_jwks, hd]⟩
          | str s => right; exact ⟨_, rfl, by simp [get_jwks, hd]⟩
          | list l => right; exact ⟨_, rfl, by simp [get_jwks, hd]⟩
          | obj e => right; exact ⟨_, rfl, by simp [get_jwks, hd]⟩
  · intro domain fetch j; rfl

/-- C10 counterexample: a `"roles"` list holding a non-string element
makes `is_admin_from_payload` raise `AttributeError` (the element has
no `.lower()`), so the admin guard errors with a 500 instead of
answering 403 — the claimed totality fails. -/
theorem C10_counterexample :
    is_admin_from_payload numericRolesPayload
      = .error "AttributeError: object has no attribute lower"
    ∧ adminCheck numericRolesPayload
      = .pyError "AttributeError: object has no attribute lower"
    ∧ errorResponse (adminCheck numericRolesPayload)
      = some (internal_handler internalErrorDescription)
    ∧ (internal_handler internalErrorDescription).status = 500 :=
  ⟨rfl, rfl, rfl, rfl⟩

/-- C10 amended: `is_admin_from_payload` answers false without raising
on `None` and on the empty mapping, and returns a boolean on every
payload that is falsy or an object whose role-bearing lists contain
only strings; on such payloads a non-admin principal gets 403
`"Admin role required"` from the admin guard. -/
theorem C10_amended_totality :
    is_admin_from_payload .null = .ok false
    ∧ is_admin_from_payload (.obj []) = .ok false
    ∧ (∀ p, wfAdmin p = true → ∃ b, is_admin_from_payload p = .ok b)
    ∧ (∀ p, wfAdmin p = true → admin_spec p = false →
        adminCheck p = .abort403 "Admin role required") := by
  refine ⟨rfl, rfl, ?_, ?_⟩
  · exact fun p h => ⟨admin_spec p, is_admin_eq_spec p h⟩
  · intro p h hfalse
    unfold adminCheck
    rw [is_admin_eq_spec p h, hfalse]

/-- C10 amended witness: a concrete well-shaped payload gets a boolean
answer, and a concrete non-admin payload gets the 403. -/
theorem C10_amended_totality_witness :
    (∃ b, is_admin_from_payload (JVal.obj [("role", .str "Admin")]) = .ok b)
    ∧ adminCheck (JVal.obj [("plan", .str "basic")]) = .abort403 "Admin role required" :=
  ⟨C10_amended_totality.2.2.1 (JVal.obj [("role", .str "Admin")]) (by rfl),
   C10_amended_totality.2.2.2 (JVal.obj [("plan", .str "basic")]) (by rfl) (by rfl)⟩

end PfZambom
